import Mathlib

/-!
Shallow embedding of the node-lifecycle orchestration core of ocs-ci
(`ocs_ci/ocs/node.py` and `ocs_ci/ocs/perftests.py`).

External collaborators (the Kubernetes resource API, the provisioning
backend, command execution) are abstracted as oracles packaged in
environment structures; the control flow of the embedded functions follows
the Python source line by line.  The `TimeoutSampler` polling primitive is
not part of the provided sources; its semantics (probe at a fixed interval,
raise a timeout error when the budget elapses, propagate probe exceptions
unchanged) are modelled from the spec and rendered here as fuel-bounded
recursion, where the fuel counts the number of probe invocations the time
budget allows.
-/

namespace OcsCi

/-- Status string constants (`constants.NODE_READY`,
`constants.NODE_READY_SCHEDULING_DISABLED`): the constants module is not in
the provided sources; the values follow the statuses named in the spec. -/
def NODE_READY : String := "Ready"

/-- `constants.NODE_READY_SCHEDULING_DISABLED`. -/
def NODE_READY_SCHEDULING_DISABLED : String := "Ready,SchedulingDisabled"

/-- Errors surfacing from the node functions:
`assertionFailed` is the `assert nodes` failure in `get_node_objs`;
`wrongStatus requested described` is `ResourceWrongStatusException`
carrying the first constructor argument (`node_names`) and the list of
nodes for which a describe dump was fetched. -/
inductive NodeErr
  | assertionFailed
  | wrongStatus (requested : List String) (described : List String)
  deriving Repr, DecidableEq

/-- Environment for the node functions: the cluster as seen by the resource
API.  `items r` is the list of node names returned by `OCP(kind=node).get()`
at the r-th API round; `statusAt r n` is `get_resource_status(n)` at round
r.  Nodes are identified by name throughout, as in the source. -/
structure NodeEnv where
  items : Nat → List String
  statusAt : Nat → String → String

/-- `get_node_objs(node_names)` (node.py:24-47): fetch all node objects,
keep those whose name is in `node_names` (all of them when `node_names` is
falsy, i.e. `None` or empty), and `assert` the result is non-empty. -/
def get_node_objs (items : List String) (node_names : List String) : Except NodeErr (List String) :=
  let nodes := if node_names = [] then items else items.filter (· ∈ node_names)
  if nodes = [] then .error .assertionFailed else .ok nodes

/-- One cycle of the polling loop in `wait_for_nodes_status`
(node.py:112-117): probe `get_node_objs(nodes_not_in_state)` and remove
from the pending list every sampled node whose current status equals the
target (`nodes_not_in_state.remove(node.name)`). -/
def pollStep (env : NodeEnv) (status : String) (r : Nat) (pending : List String) :
    Except NodeErr (List String) :=
  match get_node_objs (env.items r) pending with
  | .error e => .error e
  | .ok sample =>
      .ok ((sample.filter (fun n => env.statusAt r n = status)).foldl
        (fun l n => l.erase n) pending)

/-- Internal result of the fuel-bounded main polling loop:
`converged` when the pending list emptied, `deadline r` when the sampler's
budget elapsed at round `r` (the `TimeoutExpiredError`), `failed e` when a
probe raised. -/
inductive LoopRes
  | converged
  | deadline (r : Nat)
  | failed (e : NodeErr)
  deriving Repr, DecidableEq

/-- The `for sample in TimeoutSampler(timeout, 3, get_node_objs,
nodes_not_in_state)` loop of `wait_for_nodes_status` (node.py:112-117).
`fuel` is the number of probes the time budget allows; each cycle queries
only the remaining pending names (the probe's argument is the current
`nodes_not_in_state`) and the loop breaks when none remain.  Returns the
successive values of `nodes_not_in_state`, the initial one included, paired
with the loop's outcome. -/
def waitLoopAux (env : NodeEnv) (status : String) :
    Nat → Nat → List String → List (List String) × LoopRes
  | 0, r, pending => ([pending], .deadline r)
  | fuel + 1, r, pending =>
      match pollStep env status r pending with
      | .error e => ([pending], .failed e)
      | .ok p2 =>
          if p2 = [] then ([pending], .converged)
          else
            let rest := waitLoopAux env status fuel (r + 1) p2
            (pending :: rest.1, rest.2)

/-- Outcome of the main polling loop of `wait_for_nodes_status`. -/
def waitLoop (env : NodeEnv) (status : String) (fuel r : Nat) (pending : List String) : LoopRes :=
  (waitLoopAux env status fuel r pending).2

/-- The pending lists (`nodes_not_in_state`) entered at each cycle of the
main polling loop, the initial one included. -/
def pendingStates (env : NodeEnv) (status : String) (fuel r : Nat) (pending : List String) :
    List (List String) :=
  (waitLoopAux env status fuel r pending).1

/-- Result of the bootstrap loop: the resolved names with the next API
round, the sampler's deadline, or a probe exception. -/
inductive BootRes
  | resolved (names : List String) (r0 : Nat)
  | deadline (r : Nat)
  | failed (e : NodeErr)
  deriving Repr, DecidableEq

/-- The bootstrap loop of `wait_for_nodes_status` (node.py:105-109): when
`node_names` is falsy, sample `get_node_objs()` until a truthy (non-empty)
snapshot appears, then take its names.  A probe exception terminates the
sequence (spec §4.1). -/
def bootstrap (env : NodeEnv) : Nat → Nat → BootRes
  | 0, r => .deadline r
  | fuel + 1, r =>
      match get_node_objs (env.items r) [] with
      | .error e => .failed e
      | .ok sample => if sample ≠ [] then .resolved sample (r + 1) else bootstrap env fuel (r + 1)

/-- The `except TimeoutExpiredError` handler of `wait_for_nodes_status`
(node.py:119-125): raise `ResourceWrongStatusException(node_names,
[n.describe() for n in get_node_objs(node_names)])`.  Note the source
passes the full `node_names`, not the remaining pending list. -/
def raiseWrong (env : NodeEnv) (r : Nat) (node_names : List String) : Except NodeErr Unit :=
  match get_node_objs (env.items r) node_names with
  | .error e => .error e
  | .ok described => .error (.wrongStatus node_names described)

/-- The main phase of `wait_for_nodes_status` once names are resolved:
run the polling loop; on the sampler's deadline, enter the handler. -/
def mainPhase (env : NodeEnv) (names : List String) (status : String) (fuel r0 : Nat) :
    Except NodeErr Unit :=
  match waitLoop env status fuel r0 names with
  | .converged => .ok ()
  | .failed e => .error e
  | .deadline r => raiseWrong env r names

/-- `wait_for_nodes_status(node_names, status, timeout)` (node.py:85-125):
resolve falsy `node_names` through the bootstrap loop, then poll the
pending list until it empties or the budget (`fuel` probes) elapses. -/
def wait_for_nodes_status (env : NodeEnv) (node_names : List String) (status : String)
    (bfuel fuel : Nat) : Except NodeErr Unit :=
  if node_names = [] then
    match bootstrap env bfuel 0 with
    | .failed e => .error e
    | .deadline r => raiseWrong env r node_names
    | .resolved names r0 => mainPhase env names status fuel r0
  else
    mainPhase env node_names status fuel 0

section Sanity

/-- A two-node cluster where n1 turns Ready from round 1 on and n2 never. -/
def env3 : NodeEnv where
  items := fun _ => ["n1", "n2"]
  statusAt := fun r n => if n = "n1" ∧ 1 ≤ r then "Ready" else "NotReady"

example : wait_for_nodes_status env3 ["n1", "n2"] "Ready" 1 3 =
    .error (.wrongStatus ["n1", "n2"] ["n1", "n2"]) := by rfl

/-- All-nodes-ready cluster converges. -/
def envOk : NodeEnv where
  items := fun _ => ["a", "b"]
  statusAt := fun _ _ => "Ready"

example : wait_for_nodes_status envOk [] "Ready" 2 3 = .ok () := by rfl

example : wait_for_nodes_status envOk ["a"] "Ready" 1 3 = .ok () := by rfl

example : pendingStates env3 "Ready" 3 0 ["n1", "n2"] =
    [["n1", "n2"], ["n1", "n2"], ["n2"], ["n2"]] := by rfl

end Sanity

/-! ## Scale-down: `unschedule_nodes`, `drain_nodes`, `remove_nodes` -/

/-- Observable actions of the orchestration functions, in the order they are
performed: issuing the cordon / drain / delete `oc` commands, invoking
`wait_for_nodes_status`, querying `ceph status` through the tools pod,
calling the provisioning backend's `create_and_attach_nodes_to_cluster`,
running `set_selinux_permissions`, and labeling a node. -/
inductive Event
  | cordonCmd (nodes : List String)
  | statusWait (nodes : List String) (status : String)
  | drainCmd (nodes : List String)
  | cephQuery
  | deleteCmd (nodes : List String)
  | mutatorInvoked (numNodes : Nat)
  | selinuxSet (nodes : List String)
  | labelAdd (node : String)
  deriving Repr, DecidableEq

/-- Exceptions the `adm drain` command execution can raise:
`timeoutExpired` is `subprocess.TimeoutExpired` (the only class caught in
`drain_nodes`); `commandFailed` stands for any other failure, which
node.py:172-184 does not catch.  The `info` payload identifies the original
exception object. -/
inductive DrainExn
  | timeoutExpired (info : String)
  | commandFailed (info : String)
  deriving Repr, DecidableEq

/-- Errors propagating out of the scale-down functions. -/
inductive RmErr
  | node (e : NodeErr)
  | cmdFailed (cmd : String)
  | drainTimeout (info : String)
  | drainFailed (info : String)
  deriving Repr, DecidableEq

/-- Environment for the scale-down functions: outcomes of the external
commands, plus the node-status environment and the poll budgets used by the
embedded `wait_for_nodes_status`. -/
structure RemoveEnv where
  nodeEnv : NodeEnv
  cordonOk : Bool
  drainExec : Except DrainExn Unit
  deleteOk : Bool
  bfuel : Nat
  fuel : Nat

/-- `unschedule_nodes(node_names)` (node.py:128-143): run `oc adm cordon`
on the joined names, then `wait_for_nodes_status(node_names,
NODE_READY_SCHEDULING_DISABLED)`.  Returns the action trace and result. -/
def unschedule_nodes (env : RemoveEnv) (node_names : List String) :
    List Event × Except RmErr Unit :=
  if env.cordonOk then
    ([.cordonCmd node_names, .statusWait node_names NODE_READY_SCHEDULING_DISABLED],
      (wait_for_nodes_status env.nodeEnv node_names NODE_READY_SCHEDULING_DISABLED
        env.bfuel env.fuel).mapError .node)
  else
    ([.cordonCmd node_names], .error (.cmdFailed "adm cordon"))

/-- `drain_nodes(node_names)` (node.py:161-184): run `oc adm drain` with a
1200s command timeout; if and only if that raises `TimeoutExpired`, fetch
`ceph status` from the tools pod and re-raise the original exception
(`raise` with no argument). -/
def drain_nodes (env : RemoveEnv) (node_names : List String) :
    List Event × Except RmErr Unit :=
  match env.drainExec with
  | .ok _ => ([.drainCmd node_names], .ok ())
  | .error (.timeoutExpired info) =>
      ([.drainCmd node_names, .cephQuery], .error (.drainTimeout info))
  | .error (.commandFailed info) =>
      ([.drainCmd node_names], .error (.drainFailed info))

/-- `remove_nodes(nodes)` (node.py:205-225): extract the node names, then
in order `unschedule_nodes`, `drain_nodes`, and `oc delete nodes`; each
step's exception propagates and skips the remaining steps. -/
def remove_nodes (env : RemoveEnv) (node_names : List String) :
    List Event × Except RmErr Unit :=
  let u := unschedule_nodes env node_names
  match u.2 with
  | .error e => (u.1, .error e)
  | .ok _ =>
      let d := drain_nodes env node_names
      match d.2 with
      | .error e => (u.1 ++ d.1, .error e)
      | .ok _ =>
          (u.1 ++ d.1 ++ [.deleteCmd node_names],
            if env.deleteOk then .ok () else .error (.cmdFailed "delete nodes"))

/-! ## Scale-up: `add_new_node_and_label_upi` -/

/-- `constants.RHEL_OS`: the constants module is not in the provided
sources; the value only serves as a tag for the RHEL branch. -/
def RHEL_OS : String := "RHEL"

/-- Errors propagating out of `add_new_node_and_label_upi`:
`timeoutExpired` is `TimeoutExpiredError` from the membership-growth
sampler (the failure the spec names `ProvisioningError`); `attachFailed`
stands for an exception from `create_and_attach_nodes_to_cluster`;
`node e` propagates from `wait_for_nodes_status`. -/
inductive ScaleErr
  | timeoutExpired
  | attachFailed
  | node (e : NodeErr)
  deriving Repr, DecidableEq

/-- Environment for scale-up: `workerNodes k` is the list returned by the
k-th call to `tests.helpers.get_worker_nodes()` (call 0 is the initial
snapshot); `attachOk` is the outcome of the provisioning mutator;
`growFuel` is the probe budget of the `TimeoutSampler(timeout=600, sleep=6)`
membership poll; `nodeEnv`, `bfuel`, `fuel` drive the embedded
`wait_for_nodes_status`. -/
structure ScaleEnv where
  workerNodes : Nat → List String
  attachOk : Bool
  growFuel : Nat
  nodeEnv : NodeEnv
  bfuel : Nat
  fuel : Nat

/-- The `for sample in TimeoutSampler(timeout=600, sleep=6,
func=get_worker_nodes)` loop (node.py:324-328): break when the sampled
membership count equals the target; `none` is the sampler's
`TimeoutExpiredError`, which node.py does not catch.  On success returns
the index of the next `get_worker_nodes` call. -/
def growthPoll (env : ScaleEnv) (target : Nat) : Nat → Nat → Option Nat
  | 0, _ => none
  | fuel + 1, k =>
      if (env.workerNodes k).length = target then some (k + 1)
      else growthPoll env target fuel (k + 1)

/-- `add_new_node_and_label_upi(node_type, num_nodes, mark_for_ocs_label)`
(node.py:305-350) with `mark_for_ocs_label=True`: snapshot the worker
list, call the platform mutator `create_and_attach_nodes_to_cluster({},
node_type, num_nodes)`, poll until the worker count grows by `num_nodes`,
re-snapshot, wait for all workers to be Ready, diff the snapshots to find
the new nodes, apply selinux setup for RHEL and the OCS label to each new
node, and return `True`. -/
def add_new_node_and_label_upi (env : ScaleEnv) (node_type : String) (num_nodes : Nat) :
    List Event × Except ScaleErr Bool :=
  let initial := env.workerNodes 0
  if env.attachOk then
    match growthPoll env (initial.length + num_nodes) env.growFuel 1 with
    | none => ([.mutatorInvoked num_nodes], .error .timeoutExpired)
    | some k =>
        let nodes_after_exp := env.workerNodes k
        let waitNames := env.workerNodes (k + 1)
        match wait_for_nodes_status env.nodeEnv waitNames NODE_READY env.bfuel env.fuel with
        | .error e =>
            ([.mutatorInvoked num_nodes, .statusWait waitNames NODE_READY], .error (.node e))
        | .ok _ =>
            let new_spun_nodes := nodes_after_exp.filter (fun n => ¬ n ∈ initial)
            ([.mutatorInvoked num_nodes, .statusWait waitNames NODE_READY]
              ++ (if node_type = RHEL_OS then [.selinuxSet new_spun_nodes] else [])
              ++ new_spun_nodes.map .labelAdd,
              .ok true)
  else
    ([.mutatorInvoked num_nodes], .error .attachFailed)

/-! ## Workload completion wait: `PASTest.wait_for_wl_to_finish` -/

/-- `constants.STATUS_RUNNING`. -/
def STATUS_RUNNING : String := "Running"

/-- `constants.STATUS_PENDING`. -/
def STATUS_PENDING : String := "Pending"

/-- Does the character list start with the pattern? -/
def leadMatch : List Char → List Char → Bool
  | [], _ => true
  | _ :: _, [] => false
  | p :: ps, c :: cs => p = c && leadMatch ps cs

/-- Does the character list contain the pattern as a contiguous run?
(The `re.search("client", fname)` test of perftests.py:287.) -/
def hasSeq (pat : List Char) : List Char → Bool
  | [] => leadMatch pat []
  | c :: cs => leadMatch pat (c :: cs) || hasSeq pat cs

/-- The inner scan of perftests.py:283-295: pick the first listed pod
whose name contains `client` (pods are `(name, phase)` rows of the
`get pod` output); all other pods carry `server` names. -/
def selectClient (pods : List (String × String)) : Option (String × String) :=
  pods.find? (fun p => hasSeq "client".data p.1.data)

/-- Mutable loop state of `wait_for_wl_to_finish`: the tracked runner-pod
identity `self.client_pod`, the `restarts` counter, and the remaining
budget `total_time`. -/
structure WlState where
  clientPod : String
  restarts : Nat
  totalTime : Int
  deriving Repr, DecidableEq

/-- Terminal outcomes of `wait_for_wl_to_finish`: no client pod listed
(`Exception` "Failed to run"), too many restarts (`Exception`), a phase
other than Running/Pending/Succeeded (`ResourceWrongStatusException`),
success with logs of the tracked pod, or the loop leaving with no time
budget (`TimeoutExpiredError`). -/
inductive WlOutcome
  | noClient (prevPod : String)
  | tooManyRestarts (n : Nat)
  | wrongStatus (pod : String) (phase : String)
  | finished (pod : String)
  | timedOut (pod : String)
  deriving Repr, DecidableEq

/-- Result of one loop body: halt with an outcome or continue in a state. -/
inductive StepRes
  | halt (o : WlOutcome)
  | next (s : WlState)
  deriving Repr, DecidableEq

/-- The restart bookkeeping of perftests.py:297-305: when the matched pod
name differs from the tracked one, adopt it, increment `restarts`, and
reset `total_time` to the full `timeout`. -/
def restartTrack (timeout : Int) (fname : String) (s : WlState) : WlState :=
  if fname ≠ s.clientPod then
    { clientPod := fname, restarts := s.restarts + 1, totalTime := timeout }
  else s

/-- One body of the `while not Finished and total_time > 0` loop
(perftests.py:277-342), over the pod rows observed this cycle.  The
source hard-codes the restart cap as the literal 3 (`if restarts > 3`);
the cap is a parameter here so that the loop is stated once, and
`wait_for_wl_to_finish` below instantiates it at 3 as the source does. -/
def wlStep (maxRestarts : Nat) (timeout sleep : Int) (pods : List (String × String))
    (s : WlState) : StepRes :=
  match selectClient pods with
  | none => .halt (.noClient s.clientPod)
  | some (fname, status) =>
      let s1 := restartTrack timeout fname s
      if maxRestarts < s1.restarts then .halt (.tooManyRestarts s1.restarts)
      else if status = "Succeeded" then .halt (.finished s1.clientPod)
      else if status ≠ STATUS_RUNNING ∧ status ≠ STATUS_PENDING then
        .halt (.wrongStatus s1.clientPod status)
      else .next { s1 with totalTime := s1.totalTime - sleep }

/-- The full wait loop: `pods r` is the pod table observed at cycle r; the
loop exits with `timedOut` as soon as the budget is spent, and `fuel`
bounds the recursion (`none` when it runs out, never reached in the
concrete runs below). -/
def wlLoop (maxRestarts : Nat) (timeout sleep : Int) (pods : Nat → List (String × String)) :
    Nat → Nat → WlState → Option WlOutcome
  | 0, _, _ => none
  | fuel + 1, r, s =>
      if s.totalTime ≤ 0 then some (.timedOut s.clientPod)
      else
        match wlStep maxRestarts timeout sleep (pods r) s with
        | .halt o => some o
        | .next s2 => wlLoop maxRestarts timeout sleep pods fuel (r + 1) s2

/-- The states entered at each cycle of `wlLoop`, the initial one
included, while the loop keeps running. -/
def wlStates (maxRestarts : Nat) (timeout sleep : Int) (pods : Nat → List (String × String)) :
    Nat → Nat → WlState → List WlState
  | 0, _, s => [s]
  | fuel + 1, r, s =>
      if s.totalTime ≤ 0 then [s]
      else
        match wlStep maxRestarts timeout sleep (pods r) s with
        | .halt _ => [s]
        | .next s2 => s :: wlStates maxRestarts timeout sleep pods fuel (r + 1) s2

/-- `PASTest.wait_for_wl_to_finish(timeout, sleep)` (perftests.py:256-352):
the loop at the source's hard-coded restart cap of 3, started on the pod
identity tracked since deployment with the full budget. -/
def wait_for_wl_to_finish (pods : Nat → List (String × String)) (clientPod0 : String)
    (timeout sleep : Int) (fuel : Nat) : Option WlOutcome :=
  wlLoop 3 timeout sleep pods fuel 0 ⟨clientPod0, 0, timeout⟩

section Sanity2

/-- Pod tables realizing the observed runner-identity sequence
`[A, A, B, B, A, ...]` with `A = "client-a"`, `B = "client-b"`, every pod
Running, a `server` pod listed first each cycle. -/
def wlSeq : Nat → List (String × String) :=
  fun r =>
    [("server-1", "Running"),
      (if r = 2 ∨ r = 3 then "client-b" else "client-a", "Running")]

example : selectClient (wlSeq 0) = some ("client-a", "Running") := by rfl
example : selectClient (wlSeq 2) = some ("client-b", "Running") := by rfl
example : selectClient [("server-1", "Running")] = none := by rfl

example :
    wlStates 3 10000 300 wlSeq 5 0 ⟨"client-0", 0, 10000⟩ =
      [⟨"client-0", 0, 10000⟩, ⟨"client-a", 1, 9700⟩, ⟨"client-a", 1, 9400⟩,
        ⟨"client-b", 2, 9700⟩, ⟨"client-b", 2, 9400⟩, ⟨"client-a", 3, 9700⟩] := by rfl

example :
    wlLoop 2 10000 300 wlSeq 10 0 ⟨"client-0", 0, 10000⟩ =
      some (.tooManyRestarts 3) := by rfl

end Sanity2

/-! ## Helper lemmas -/

lemma foldl_erase_subset (l : List String) :
    ∀ p : List String, l.foldl (fun acc n => acc.erase n) p ⊆ p := by
  induction l with
  | nil => intro p; simp
  | cons m l ih =>
      intro p
      simp only [List.foldl_cons]
      exact (ih (p.erase m)).trans (List.erase_subset m p)

lemma foldl_erase_removes (n : String) (l : List String) :
    ∀ p : List String, p.Nodup → n ∈ l →
      n ∉ l.foldl (fun acc m => acc.erase m) p := by
  induction l with
  | nil => intro p _ h; cases h
  | cons m l ih =>
      intro p hp hn
      simp only [List.foldl_cons]
      rcases List.mem_cons.mp hn with h | h
      · subst h
        intro hmem
        exact hp.not_mem_erase (foldl_erase_subset l (p.erase n) hmem)
      · exact ih (p.erase m) (hp.erase m) h

lemma get_node_objs_ok (items node_names sample : List String)
    (h : get_node_objs items node_names = .ok sample) :
    sample = (if node_names = [] then items else items.filter (· ∈ node_names)) ∧
      sample ≠ [] := by
  by_cases hn : node_names = []
  · simp only [get_node_objs, if_pos hn] at h ⊢
    by_cases hi : items = []
    · rw [if_pos hi] at h; cases h
    · rw [if_neg hi] at h
      injection h with h2
      subst h2
      exact ⟨rfl, hi⟩
  · simp only [get_node_objs, if_neg hn] at h ⊢
    by_cases hi : items.filter (· ∈ node_names) = []
    · rw [if_pos hi] at h; cases h
    · rw [if_neg hi] at h
      injection h with h2
      subst h2
      exact ⟨rfl, hi⟩

lemma pollStep_ok (env : NodeEnv) (status : String) (r : Nat) (p p2 : List String)
    (h : pollStep env status r p = .ok p2) :
    p2 ⊆ p ∧
      (p.Nodup → ∀ n, n ∈ p → n ∈ env.items r → env.statusAt r n = status → n ∉ p2) := by
  unfold pollStep at h
  cases hg : get_node_objs (env.items r) p with
  | error e => rw [hg] at h; cases h
  | ok sample =>
      rw [hg] at h
      cases h
      constructor
      · exact foldl_erase_subset _ p
      · intro hnd n hnp hni hst
        have hsample := (get_node_objs_ok _ _ _ hg).1
        have hpne : p ≠ [] := List.ne_nil_of_mem hnp
        have hnsample : n ∈ sample := by
          rw [hsample, if_neg hpne]
          exact List.mem_filter.mpr ⟨hni, by simpa using hnp⟩
        exact foldl_erase_removes n _ p hnd
          (List.mem_filter.mpr ⟨hnsample, by simpa using hst⟩)

lemma waitLoopAux_mem_subset (env : NodeEnv) (status : String) :
    ∀ fuel r p x, x ∈ (waitLoopAux env status fuel r p).1 → x ⊆ p := by
  intro fuel
  induction fuel with
  | zero =>
      intro r p x hx
      simp only [waitLoopAux, List.mem_singleton] at hx
      subst hx; exact fun a ha => ha
  | succ fuel ih =>
      intro r p x hx
      simp only [waitLoopAux] at hx
      cases hps : pollStep env status r p with
      | error e =>
          rw [hps] at hx
          simp only [List.mem_singleton] at hx
          subst hx; exact fun a ha => ha
      | ok p2 =>
          rw [hps] at hx
          by_cases hnil : p2 = []
          · simp [hnil] at hx
            subst hx; exact fun a ha => ha
          · simp only [if_neg hnil, List.mem_cons] at hx
            rcases hx with hx | hx
            · subst hx; exact fun a ha => ha
            · exact (ih (r + 1) p2 x hx).trans (pollStep_ok env status r p p2 hps).1

lemma waitLoopAux_pairwise (env : NodeEnv) (status : String) :
    ∀ fuel r p,
      List.Pairwise (fun a b : List String => b ⊆ a) (waitLoopAux env status fuel r p).1 := by
  intro fuel
  induction fuel with
  | zero => intro r p; simp [waitLoopAux]
  | succ fuel ih =>
      intro r p
      simp only [waitLoopAux]
      cases hps : pollStep env status r p with
      | error e => simp
      | ok p2 =>
          by_cases hnil : p2 = []
          · simp [hnil]
          · simp only [if_neg hnil]
            refine List.Pairwise.cons ?_ (ih (r + 1) p2)
            intro x hx
            exact (waitLoopAux_mem_subset env status fuel (r + 1) p2 x hx).trans
              (pollStep_ok env status r p p2 hps).1

/-! ## Claim theorems -/

/-- Claim C4: within a single `wait_for_nodes_status` call, the pending set
(`nodes_not_in_state`) is monotonically non-increasing — every later value
is a subset of every earlier one, so a removed name is never re-added — and
in each successful poll cycle (which queries only the current pending
names, as `pollStep` passes exactly `pending` to `get_node_objs`) a pending
name whose sampled status matches the target is removed. -/
theorem wait_pending_monotone (env : NodeEnv) (status : String) (fuel r : Nat)
    (pending : List String) :
    List.Pairwise (fun a b : List String => b ⊆ a)
      (pendingStates env status fuel r pending) ∧
    (∀ r2 p p2, pollStep env status r2 p = .ok p2 →
      p2 ⊆ p ∧
        (p.Nodup → ∀ n, n ∈ p → n ∈ env.items r2 → env.statusAt r2 n = status → n ∉ p2)) :=
  ⟨waitLoopAux_pairwise env status fuel r pending,
    fun r2 p p2 h => pollStep_ok env status r2 p p2 h⟩

/-- Witness for C4 at a concrete input: one poll cycle of `env3` at round 1
shrinks the pending list from both nodes to just n2, removing the
now-Ready n1. -/
theorem wait_pending_monotone_witness :
    (["n2"] : List String) ⊆ ["n1", "n2"] ∧ "n1" ∉ (["n2"] : List String) := by
  have h := (wait_pending_monotone env3 "Ready" 1 0 ["n1", "n2"]).2 1
    ["n1", "n2"] ["n2"] (by rfl)
  exact ⟨h.1, h.2 (by decide) "n1" (by decide) (by decide) (by rfl)⟩

/-- Claim C3 (divergence witness): in `env3`, waiting on both nodes where
n1 converges at round 1 and n2 never does, the pending list has shrunk to
just n2, yet the raised `ResourceWrongStatusException` carries the full
requested list and a describe dump for BOTH n1 and n2 — node.py:123-125
passes `node_names`, not `nodes_not_in_state`, to the exception. -/
theorem wait_timeout_describes_all_requested :
    wait_for_nodes_status env3 ["n1", "n2"] "Ready" 1 3 =
      .error (.wrongStatus ["n1", "n2"] ["n1", "n2"]) ∧
    pendingStates env3 "Ready" 3 0 ["n1", "n2"] =
      [["n1", "n2"], ["n1", "n2"], ["n2"], ["n2"]] :=
  ⟨rfl, rfl⟩

/-- Claim C1: `remove_nodes` runs cordon (command plus the wait for
`Ready,SchedulingDisabled`), drain, and delete in strict order — drain is
invoked only after the cordon command succeeded and its status wait
returned cleanly, delete is invoked only after the drain command completed
successfully — and any phase failure aborts all remaining phases. -/
theorem remove_nodes_phase_order (env : RemoveEnv) (node_names : List String) :
    (Event.drainCmd node_names ∈ (remove_nodes env node_names).1 →
      env.cordonOk = true ∧
      wait_for_nodes_status env.nodeEnv node_names NODE_READY_SCHEDULING_DISABLED
        env.bfuel env.fuel = .ok () ∧
      (remove_nodes env node_names).1.take 3 =
        [.cordonCmd node_names, .statusWait node_names NODE_READY_SCHEDULING_DISABLED,
          .drainCmd node_names]) ∧
    (Event.deleteCmd node_names ∈ (remove_nodes env node_names).1 →
      env.drainExec = .ok () ∧
      ∃ pre, (remove_nodes env node_names).1 = pre ++ [Event.deleteCmd node_names] ∧
        Event.drainCmd node_names ∈ pre ∧ Event.cordonCmd node_names ∈ pre ∧
        Event.statusWait node_names NODE_READY_SCHEDULING_DISABLED ∈ pre) ∧
    ((unschedule_nodes env node_names).2 ≠ .ok () →
      Event.drainCmd node_names ∉ (remove_nodes env node_names).1 ∧
      Event.deleteCmd node_names ∉ (remove_nodes env node_names).1) ∧
    ((drain_nodes env node_names).2 ≠ .ok () →
      Event.deleteCmd node_names ∉ (remove_nodes env node_names).1) := by
  cases hc : env.cordonOk with
  | false =>
      refine ⟨?_, ?_, ?_, ?_⟩ <;>
        simp [remove_nodes, unschedule_nodes, drain_nodes, hc]
  | true =>
      cases hw : wait_for_nodes_status env.nodeEnv node_names
          NODE_READY_SCHEDULING_DISABLED env.bfuel env.fuel with
      | error e =>
          refine ⟨?_, ?_, ?_, ?_⟩ <;>
            simp [remove_nodes, unschedule_nodes, drain_nodes, hc, hw, Except.mapError]
      | ok u =>
          cases u
          cases hd : env.drainExec with
          | ok u => cases u
                    refine ⟨?_, ?_, ?_, ?_⟩ <;>
                      simp [remove_nodes, unschedule_nodes, drain_nodes, hc, hw, hd,
                        Except.mapError]
                    exact ⟨[Event.cordonCmd node_names,
                      Event.statusWait node_names NODE_READY_SCHEDULING_DISABLED,
                      Event.drainCmd node_names], by simp⟩
          | error e =>
              cases e with
              | timeoutExpired info =>
                  refine ⟨?_, ?_, ?_, ?_⟩ <;>
                    simp [remove_nodes, unschedule_nodes, drain_nodes, hc, hw, hd,
                      Except.mapError]
              | commandFailed info =>
                  refine ⟨?_, ?_, ?_, ?_⟩ <;>
                    simp [remove_nodes, unschedule_nodes, drain_nodes, hc, hw, hd,
                      Except.mapError]

/-- A removal environment in which every phase succeeds: the single node
reaches `Ready,SchedulingDisabled` at once. -/
def envRmOk : RemoveEnv where
  nodeEnv := ⟨fun _ => ["a"], fun _ _ => NODE_READY_SCHEDULING_DISABLED⟩
  cordonOk := true
  drainExec := .ok ()
  deleteOk := true
  bfuel := 1
  fuel := 2

/-- Witness for C1 at a concrete input: in `envRmOk` the drain command is
in the trace, so the cordon phase completed first. -/
theorem remove_nodes_phase_order_witness :
    envRmOk.cordonOk = true ∧
    wait_for_nodes_status envRmOk.nodeEnv ["a"] NODE_READY_SCHEDULING_DISABLED
      envRmOk.bfuel envRmOk.fuel = .ok () ∧
    (remove_nodes envRmOk ["a"]).1.take 3 =
      [.cordonCmd ["a"], .statusWait ["a"] NODE_READY_SCHEDULING_DISABLED,
        .drainCmd ["a"]] :=
  (remove_nodes_phase_order envRmOk ["a"]).1 (by decide)

/-- Claim C2: when the drain command raises its internal timeout
(`subprocess.TimeoutExpired`), `drain_nodes` captures the ceph status
snapshot (the `cephQuery` action follows the drain command in the trace)
and re-raises the original timeout error, payload intact. -/
theorem drain_timeout_captures_snapshot (env : RemoveEnv) (node_names : List String)
    (info : String) (h : env.drainExec = .error (.timeoutExpired info)) :
    drain_nodes env node_names =
      ([.drainCmd node_names, .cephQuery], .error (.drainTimeout info)) := by
  unfold drain_nodes
  rw [h]

/-- A removal environment whose drain command times out. -/
def envRmTo : RemoveEnv where
  nodeEnv := ⟨fun _ => ["a"], fun _ _ => NODE_READY_SCHEDULING_DISABLED⟩
  cordonOk := true
  drainExec := .error (.timeoutExpired "TimeoutExpired-1200s")
  deleteOk := true
  bfuel := 1
  fuel := 2

/-- Witness for C2 at a concrete input. -/
theorem drain_timeout_captures_snapshot_witness :
    drain_nodes envRmTo ["a"] =
      ([.drainCmd ["a"], .cephQuery], .error (.drainTimeout "TimeoutExpired-1200s")) :=
  drain_timeout_captures_snapshot envRmTo ["a"] "TimeoutExpired-1200s" rfl

lemma growthPoll_none (env : ScaleEnv) (target : Nat) :
    ∀ fuel k, (∀ j, k ≤ j → j < k + fuel → (env.workerNodes j).length ≠ target) →
      growthPoll env target fuel k = none := by
  intro fuel
  induction fuel with
  | zero => intro k _; rfl
  | succ fuel ih =>
      intro k h
      unfold growthPoll
      rw [if_neg (h k (le_refl k) (by omega))]
      exact ih (k + 1) fun j h1 h2 => h j (by omega) (by omega)

/-- Claim C7: when the worker-pool membership never reaches the requested
size within the growth sampler's budget, `add_new_node_and_label_upi`
propagates the sampler's timeout error (the failure the spec names
`ProvisioningError`) at once: the whole result is that single error, the
trace stops at the mutator invocation, and in particular the
node-status-wait phase is never entered. -/
theorem scale_up_growth_shortfall (env : ScaleEnv) (node_type : String) (num_nodes : Nat)
    (hattach : env.attachOk = true)
    (h : ∀ j, 1 ≤ j → j < 1 + env.growFuel →
      (env.workerNodes j).length ≠ (env.workerNodes 0).length + num_nodes) :
    add_new_node_and_label_upi env node_type num_nodes =
      ([.mutatorInvoked num_nodes], .error .timeoutExpired) ∧
    ∀ ns st, Event.statusWait ns st ∉ (add_new_node_and_label_upi env node_type num_nodes).1 := by
  have hg : growthPoll env ((env.workerNodes 0).length + num_nodes) env.growFuel 1 = none :=
    growthPoll_none env _ env.growFuel 1 fun j h1 h2 => h j h1 (by omega)
  constructor
  · unfold add_new_node_and_label_upi
    rw [if_pos hattach, hg]
  · intro ns st
    unfold add_new_node_and_label_upi
    rw [if_pos hattach, hg]
    simp

/-- A scale-up environment where the pool grows by one node while two are
requested: every sampled membership has size 2, the initial snapshot 1. -/
def envGrow : ScaleEnv where
  workerNodes := fun k => if k = 0 then ["w1"] else ["w1", "w2"]
  attachOk := true
  growFuel := 3
  nodeEnv := ⟨fun _ => ["w1"], fun _ _ => NODE_READY⟩
  bfuel := 1
  fuel := 1

/-- Witness for C7 at a concrete input: requesting 2 nodes while only 1
appears fails with the sampler's timeout and no status-wait phase. -/
theorem scale_up_growth_shortfall_witness :
    add_new_node_and_label_upi envGrow "RHCOS" 2 =
      ([.mutatorInvoked 2], .error .timeoutExpired) ∧
    ∀ ns st, Event.statusWait ns st ∉ (add_new_node_and_label_upi envGrow "RHCOS" 2).1 :=
  scale_up_growth_shortfall envGrow "RHCOS" 2 rfl
    (fun j hj _ => by
      have hne : j ≠ 0 := by omega
      simp [envGrow, hne])

/-- A scale-up environment with stable membership: a single worker,
already Ready, and the backend attach call succeeding. -/
def envScale0 : ScaleEnv where
  workerNodes := fun _ => ["w1"]
  attachOk := true
  growFuel := 2
  nodeEnv := ⟨fun _ => ["w1"], fun _ _ => NODE_READY⟩
  bfuel := 1
  fuel := 2

/-- Counterexample to claim C8: scale-up with `num_nodes = 0` is NOT the
claimed no-op — the provisioning mutator `create_and_attach_nodes_to_cluster`
IS invoked (with a zero delta), and the function returns `True`, not an
empty list of new node handles. -/
theorem scale_up_delta_zero_not_noop :
    Event.mutatorInvoked 0 ∈ (add_new_node_and_label_upi envScale0 "RHCOS" 0).1 ∧
    (add_new_node_and_label_upi envScale0 "RHCOS" 0).2 = .ok true := by
  constructor
  · decide
  · rfl

/-- Claim C8 as amended: scale-up with `num_nodes = 0` still invokes the
provisioning mutator (passing a delta of zero); under stable pool
membership it identifies no new nodes — no label is applied to any node —
and on success it returns `True` rather than a list of new handles. -/
theorem scale_up_delta_zero_amended (env : ScaleEnv) (node_type : String)
    (hstable : ∀ k, env.workerNodes k = env.workerNodes 0)
    (hg : 1 ≤ env.growFuel) :
    Event.mutatorInvoked 0 ∈ (add_new_node_and_label_upi env node_type 0).1 ∧
    (∀ n, Event.labelAdd n ∉ (add_new_node_and_label_upi env node_type 0).1) ∧
    (∀ b, (add_new_node_and_label_upi env node_type 0).2 = .ok b → b = true) := by
  cases ha : env.attachOk with
  | false =>
      refine ⟨?_, ?_, ?_⟩ <;> simp [add_new_node_and_label_upi, ha]
  | true =>
      obtain ⟨f, hf⟩ : ∃ f, env.growFuel = f + 1 :=
        ⟨env.growFuel - 1, by omega⟩
      have hpoll : growthPoll env (env.workerNodes 0).length env.growFuel 1 =
          some 2 := by
        rw [hf]
        unfold growthPoll
        rw [if_pos (by rw [hstable 1])]
      have hspun : (env.workerNodes 2).filter (fun n => !decide (n ∈ env.workerNodes 0)) = [] := by
        rw [hstable 2]
        exact List.filter_eq_nil_iff.mpr fun a ha2 => by simp [ha2]
      cases hw : wait_for_nodes_status env.nodeEnv (env.workerNodes 3) NODE_READY
          env.bfuel env.fuel with
      | error e =>
          refine ⟨?_, ?_, ?_⟩ <;>
            simp [add_new_node_and_label_upi, ha, hpoll, hw]
      | ok u =>
          cases u
          refine ⟨?_, ?_, ?_⟩ <;>
            simp [add_new_node_and_label_upi, ha, hpoll, hw, hspun]

/-- Witness for the amended C8 at a concrete input. -/
theorem scale_up_delta_zero_amended_witness :
    Event.mutatorInvoked 0 ∈ (add_new_node_and_label_upi envScale0 "RHEL" 0).1 ∧
    (∀ n, Event.labelAdd n ∉ (add_new_node_and_label_upi envScale0 "RHEL" 0).1) ∧
    (∀ b, (add_new_node_and_label_upi envScale0 "RHEL" 0).2 = .ok b → b = true) :=
  scale_up_delta_zero_amended envScale0 "RHEL" (fun _ => rfl) (by decide)

/-- Claim C5: on the observed runner-identity sequence `[A, A, B, B, A]`
(tracker starting on a pod identity from deployment distinct from A and B),
with the source's cap of 3 the restart count is 2 at the cycle where B
first appears and 3 at the cycle where A reappears, and the loop keeps
running; with a cap of 2 the run fails fatally with `tooManyRestarts` at
the third distinct-identity observation even though almost the whole
(freshly reset) budget remains; and in general, whenever the incremented
restart count exceeds the cap, the cycle halts fatally without consulting
the remaining time budget. -/
theorem wl_restart_counting :
    wlStates 3 10000 300 wlSeq 5 0 ⟨"client-0", 0, 10000⟩ =
      [⟨"client-0", 0, 10000⟩, ⟨"client-a", 1, 9700⟩, ⟨"client-a", 1, 9400⟩,
        ⟨"client-b", 2, 9700⟩, ⟨"client-b", 2, 9400⟩, ⟨"client-a", 3, 9700⟩] ∧
    wlLoop 2 10000 300 wlSeq 10 0 ⟨"client-0", 0, 10000⟩ =
      some (.tooManyRestarts 3) ∧
    (∀ (maxR : Nat) (timeout sleep : Int) (pods : List (String × String))
      (s : WlState) (fname status : String),
      selectClient pods = some (fname, status) → fname ≠ s.clientPod →
      maxR < s.restarts + 1 →
      wlStep maxR timeout sleep pods s = .halt (.tooManyRestarts (s.restarts + 1))) := by
  refine ⟨rfl, rfl, ?_⟩
  intro maxR timeout sleep pods s fname status hsel hne hcap
  unfold wlStep
  rw [hsel]
  simp only [restartTrack, if_pos hne]
  rw [if_pos hcap]

/-- Witness for C5's general clause at a concrete input: cap 1, a second
identity change with 49 time units still in the budget halts fatally. -/
theorem wl_restart_counting_witness :
    wlStep 1 50 5 [("client-x", "Running")] ⟨"client-w", 1, 49⟩ =
      .halt (.tooManyRestarts 2) :=
  wl_restart_counting.2.2 1 50 5 [("client-x", "Running")] ⟨"client-w", 1, 49⟩
    "client-x" "Running" rfl (by decide) (by decide)

/-- Claim C6: whenever the matched runner pod's identity differs from the
tracked one, the cycle adopts the new identity, increments the restart
count, and resets the remaining budget to the full original `timeout` —
independent of how much of the old budget was left — and, when the new
count is within the cap and the phase is Running or Pending, polling
continues into the next cycle with that fresh budget less the one `sleep`
every cycle pays. -/
theorem wl_restart_resets_budget (maxR : Nat) (timeout sleep : Int)
    (pods : List (String × String)) (s : WlState) (fname status : String)
    (hsel : selectClient pods = some (fname, status))
    (hne : fname ≠ s.clientPod)
    (hcap : s.restarts + 1 ≤ maxR)
    (hst : status = STATUS_RUNNING ∨ status = STATUS_PENDING) :
    restartTrack timeout fname s = ⟨fname, s.restarts + 1, timeout⟩ ∧
    wlStep maxR timeout sleep pods s = .next ⟨fname, s.restarts + 1, timeout - sleep⟩ := by
  have htrack : restartTrack timeout fname s = ⟨fname, s.restarts + 1, timeout⟩ := by
    simp only [restartTrack, if_pos hne]
  refine ⟨htrack, ?_⟩
  unfold wlStep
  rw [hsel]
  simp only [htrack]
  rw [if_neg (by omega)]
  rcases hst with hst | hst <;> subst hst
  · rw [if_neg (by simp [STATUS_RUNNING]), if_neg (by simp)]
  · rw [if_neg (by simp [STATUS_PENDING]), if_neg (by simp [STATUS_PENDING, STATUS_RUNNING])]

/-- Witness for C6 at a concrete input: a restart observed with only 37
time units left grants the full 600 budget again (570 after this cycle's
sleep of 30). -/
theorem wl_restart_resets_budget_witness :
    restartTrack 600 "client-n" ⟨"client-o", 0, 37⟩ = ⟨"client-n", 1, 600⟩ ∧
    wlStep 3 600 30 [("client-n", "Running")] ⟨"client-o", 0, 37⟩ =
      .next ⟨"client-n", 1, 570⟩ :=
  wl_restart_resets_budget 3 600 30 [("client-n", "Running")] ⟨"client-o", 0, 37⟩
    "client-n" "Running" rfl (by decide) (by decide) (Or.inl rfl)

lemma bootstrap_resolved_spec (env : NodeEnv) :
    ∀ bfuel r names r0, bootstrap env bfuel r = .resolved names r0 →
      r < r0 ∧ r0 ≤ r + bfuel ∧ names = env.items (r0 - 1) ∧ names ≠ [] := by
  intro bfuel
  induction bfuel with
  | zero => intro r names r0 h; cases h
  | succ bfuel ih =>
      intro r names r0 h
      unfold bootstrap at h
      split at h
      · cases h
      · rename_i sample hg
        by_cases hne : sample ≠ []
        · rw [if_pos hne] at h
          injection h with h1 h2
          subst h1; subst h2
          have hs := (get_node_objs_ok (env.items r) [] sample hg).1
          simp only [if_pos rfl] at hs
          exact ⟨by omega, by omega, by simpa using hs, hne⟩
        · rw [if_neg hne] at h
          obtain ⟨h1, h2, h3, h4⟩ := ih (r + 1) names r0 h
          exact ⟨by omega, by omega, h3, h4⟩

/-- Claim C9: a `wait_for_nodes_status` call with a falsy `node_names`
first resolves the name set through the bootstrap sampler — the resolved
set is exactly (hence a subset of) the node list at the bootstrap round,
and is non-empty — and only then starts the target-status polling phase
over exactly that snapshot. -/
theorem wait_empty_names_bootstrap (env : NodeEnv) (status : String) (bfuel fuel : Nat)
    (names : List String) (r0 : Nat)
    (h : bootstrap env bfuel 0 = .resolved names r0) :
    wait_for_nodes_status env [] status bfuel fuel = mainPhase env names status fuel r0 ∧
    1 ≤ r0 ∧ r0 ≤ bfuel ∧ names = env.items (r0 - 1) ∧ names ≠ [] := by
  obtain ⟨h1, h2, h3, h4⟩ := bootstrap_resolved_spec env bfuel 0 names r0 h
  refine ⟨?_, by omega, by omega, h3, h4⟩
  unfold wait_for_nodes_status
  rw [if_pos rfl, h]

/-- Witness for C9 at a concrete input: the empty request on `envOk`
resolves to the round-0 node list and polls exactly it. -/
theorem wait_empty_names_bootstrap_witness :
    wait_for_nodes_status envOk [] "Ready" 2 3 = mainPhase envOk ["a", "b"] "Ready" 3 1 ∧
    1 ≤ 1 ∧ 1 ≤ 2 ∧ (["a", "b"] : List String) = envOk.items 0 ∧
    (["a", "b"] : List String) ≠ [] :=
  wait_empty_names_bootstrap envOk "Ready" 2 3 ["a", "b"] 1 rfl

lemma get_node_objs_nil (node_names : List String) :
    get_node_objs [] node_names = .error .assertionFailed := by
  by_cases hn : node_names = []
  · simp [get_node_objs, hn]
  · simp [get_node_objs, hn]

/-- Claim C10: `get_node_objs` never returns an empty list — every call
either fails the `assert nodes` check or returns a non-empty list — and
consequently a cluster whose node list is empty makes
`wait_for_nodes_status` surface the assertion failure (for any requested
names and any budgets) rather than a polling timeout. -/
theorem get_node_objs_never_empty :
    (∀ items node_names, get_node_objs items node_names = .error .assertionFailed ∨
      ∃ l, get_node_objs items node_names = .ok l ∧ l ≠ []) ∧
    (∀ (env : NodeEnv) (node_names : List String) (status : String) (bfuel fuel : Nat),
      (∀ r, env.items r = []) →
      wait_for_nodes_status env node_names status bfuel fuel =
        .error .assertionFailed) := by
  constructor
  · intro items node_names
    by_cases hn : node_names = []
    · by_cases hi : items = []
      · left; simp [get_node_objs, hn, hi]
      · right; exact ⟨items, by simp [get_node_objs, hn, hi], hi⟩
    · by_cases hi : items.filter (· ∈ node_names) = []
      · left; simp [get_node_objs, hn, hi]
      · right; exact ⟨items.filter (· ∈ node_names), by simp [get_node_objs, hn, hi], hi⟩
  · intro env node_names status bfuel fuel hempty
    have hobj : ∀ r x, get_node_objs (env.items r) x = .error .assertionFailed := by
      intro r x; rw [hempty r]; exact get_node_objs_nil x
    by_cases hn : node_names = []
    · subst hn
      unfold wait_for_nodes_status
      rw [if_pos rfl]
      cases bfuel with
      | zero =>
          show raiseWrong env 0 [] = _
          unfold raiseWrong
          rw [hobj 0 []]
      | succ b =>
          show (match bootstrap env (b + 1) 0 with
            | .failed e => Except.error e
            | .deadline r => raiseWrong env r []
            | .resolved names r0 => mainPhase env names status fuel r0) = _
          unfold bootstrap
          rw [hobj 0 []]
    · unfold wait_for_nodes_status
      rw [if_neg hn]
      unfold mainPhase
      cases fuel with
      | zero =>
          show raiseWrong env 0 node_names = _
          unfold raiseWrong
          rw [hobj 0 node_names]
      | succ f =>
          show (match waitLoop env status (f + 1) 0 node_names with
            | .converged => Except.ok ()
            | .failed e => Except.error e
            | .deadline r => raiseWrong env r node_names) = _
          unfold waitLoop waitLoopAux
          unfold pollStep
          rw [hobj 0 node_names]

/-- The node environment of a cluster reporting zero nodes. -/
def envEmpty : NodeEnv where
  items := fun _ => []
  statusAt := fun _ _ => ""

/-- Witness for C10 at a concrete input: with zero nodes reported, a wait
on a named node fails with the assertion error, not a timeout. -/
theorem get_node_objs_never_empty_witness :
    (get_node_objs [] ["x"] = .error .assertionFailed ∨
      ∃ l, get_node_objs [] ["x"] = .ok l ∧ l ≠ []) ∧
    wait_for_nodes_status envEmpty ["x"] "Ready" 1 2 = .error .assertionFailed :=
  ⟨get_node_objs_never_empty.1 [] ["x"],
    get_node_objs_never_empty.2 envEmpty ["x"] "Ready" 1 2 (fun _ => rfl)⟩

end OcsCi
